import Mathlib

/-
Verification of the healthcare research-assistant pipeline.

The definitions below are a shallow embedding of the Python sources:
  - message_filter.py      (MessageFilter)
  - state_management.py    (HealthcareStateManager)
  - memory_manager.py      (HealthcareMemoryManager.trim_short_term_memory)
  - human_loop_integration.py (HumanInTheLoopManager)
  - healthcare_schema.py   (HealthcareAgentState and record schemas)

Text is modelled as `List Char` (via `String.data`); Python floats are
modelled as exact rationals (only comparisons with literals occur, so the
model is faithful on every computation the theorems touch); Python dicts
whose shape the code never inspects are modelled as association lists.
Character-class predicates model the ASCII fragment of Python's `\w`,
`\s`, `str.lower()` and `str.split()`.
-/

/-! ### Basic text primitives (Python string semantics) -/

/-- ASCII fragment of Python whitespace (`str.split`, `str.strip`, `\s`). -/
def isPySpace (c : Char) : Bool :=
  c = ' ' || c = '\t' || c = '\n' || c = '\r' || c = '\x0b' || c = '\x0c'

/-- ASCII fragment of Python `str.lower` (per character). -/
def lowerChar (c : Char) : Char :=
  if 'A' ≤ c ∧ c ≤ 'Z' then Char.ofNat (c.toNat + 32) else c

/-- Lower-case a character list. -/
def lowerL (l : List Char) : List Char := l.map lowerChar

/-- Does the second list start with the first? -/
def startsWithL : List Char → List Char → Bool
  | [], _ => true
  | _ :: _, [] => false
  | a :: as, b :: bs => a = b && startsWithL as bs

/-- Python's `needle in hay` substring test. -/
def inStr (needle : List Char) : List Char → Bool
  | [] => needle.isEmpty
  | c :: t => startsWithL needle (c :: t) || inStr needle t

/-- Python `str.strip()` (whitespace from both ends). -/
def stripL (l : List Char) : List Char :=
  ((l.dropWhile isPySpace).reverse.dropWhile isPySpace).reverse

/-- Worker for `pySplit`: `cur` is the current token, reversed. -/
def pySplitAux : List Char → List Char → List (List Char)
  | cur, [] => if cur.isEmpty then [] else [cur.reverse]
  | cur, c :: t =>
    if isPySpace c then
      if cur.isEmpty then pySplitAux [] t else cur.reverse :: pySplitAux [] t
    else pySplitAux (c :: cur) t

/-- Python `str.split()` with no argument: split on whitespace runs. -/
def pySplit (l : List Char) : List (List Char) := pySplitAux [] l

/-- Worker for `collapseWs`: the flag records whether the previous kept
character position was inside a whitespace run. -/
def collapseWsAux : Bool → List Char → List Char
  | _, [] => []
  | prevSpace, c :: t =>
    if isPySpace c then
      if prevSpace then collapseWsAux true t else ' ' :: collapseWsAux true t
    else c :: collapseWsAux false t

/-- Model of `re.sub(r'\s+', ' ', ·)`: replace each whitespace run by one space. -/
def collapseWs (l : List Char) : List Char := collapseWsAux false l

/-- ASCII fragment of Python `\w`. -/
def isWordChar (c : Char) : Bool := c.isAlphanum || c = '_'

/-! ### message_filter.py — MessageFilter -/

/-- Embedding of `MessageFilter._load_medical_keywords`. -/
def medicalKeywords : List String :=
  [ "diabetes", "hypertension", "cancer", "covid", "pneumonia", "asthma",
    "arthritis", "depression", "anxiety", "migraine", "copd", "alzheimer",
    "disease", "syndrome", "disorder", "condition", "illness", "symptom",
    "treatment", "therapy", "medication", "drug", "surgery", "procedure",
    "intervention", "protocol", "regimen", "dosage", "administration",
    "cure", "heal", "remedy", "medicine", "pharmaceutical",
    "clinical trial", "study", "research", "meta-analysis", "systematic review",
    "randomized", "controlled", "placebo", "efficacy", "safety",
    "evidence", "data", "analysis", "findings", "results",
    "mortality", "morbidity", "outcome", "prognosis", "diagnosis", "biomarker",
    "side effects", "adverse events", "complications", "recovery",
    "symptoms", "pain", "relief", "improvement",
    "patient", "healthcare", "clinical", "hospital", "physician", "nurse",
    "pharmacist", "medical", "health", "medicine", "doctor", "clinic",
    "what", "how", "why", "when", "where", "can", "should", "compare",
    "effective", "best", "recommend", "suggest", "help", "information" ]

/-- Character allow-list of `_clean_text`'s removal step
(`[^\w\s\-\+\/%\.\,\;\:\?\!]` is deleted). -/
def keepChar (c : Char) : Bool :=
  isWordChar c || isPySpace c ||
    c = '-' || c = '+' || c = '/' || c = '%' || c = '.' || c = ',' ||
    c = ';' || c = ':' || c = '?' || c = '!'

/-- Abbreviation table of `_clean_text` applied to one word run
(`re.sub(r'\b abbr \b', full, ·, IGNORECASE)`, applied for each entry in
dict order; since no expansion introduces a word equal to a later key,
this equals a single pass over maximal word runs). -/
def expandWord (w : List Char) : List Char :=
  let lw := lowerL w
  if lw = "mg".data then "milligrams".data
  else if lw = "ml".data then "milliliters".data
  else if lw = "mcg".data then "micrograms".data
  else if lw = "bid".data then "twice daily".data
  else if lw = "tid".data then "three times daily".data
  else if lw = "qd".data then "once daily".data
  else w

/-- Worker for abbreviation expansion: `run` is the current maximal word
run, reversed. -/
def expandAbbrevAux : List Char → List Char → List Char
  | run, [] => expandWord run.reverse
  | run, c :: t =>
    if isWordChar c then expandAbbrevAux (c :: run) t
    else expandWord run.reverse ++ c :: expandAbbrevAux [] t

/-- Embedding of `MessageFilter._clean_text`. -/
def cleanText (l : List Char) : List Char :=
  expandAbbrevAux [] (List.filter keepChar (collapseWs (stripL l)))

/-- Does the text start with one of the given alternatives?  Models
`re.search` of an anchored alternation `^(p1|p2|...)`. -/
def startsWithAny (l : List Char) (pats : List String) : Bool :=
  pats.any (fun p => startsWithL p.data l)

/-- High-severity greeting pattern `^(hi|hello|hey|good morning|good
afternoon|good evening)`. -/
def greetingStarts : List String :=
  ["hi", "hello", "hey", "good morning", "good afternoon", "good evening"]

/-- High-severity vague-query pattern
`^(what can you do|help|how are you|what is this)`. -/
def vagueStarts : List String :=
  ["what can you do", "help", "how are you", "what is this"]

/-- Spam pattern `^(.)\1{5,}`: first character repeated at least 6 times. -/
def spamMatch : List Char → Bool
  | [] => false
  | c :: t => 5 ≤ (t.takeWhile (fun d => d = c)).length

/-- Does the pattern predicate hold at some suffix?  Models unanchored
`re.search`. -/
def existsSuffix (p : List Char → Bool) : List Char → Bool
  | [] => p []
  | c :: t => p (c :: t) || existsSuffix p t

/-- Dosage pattern `\d+\s*(mg|ml|mcg|units)` tested at one position. -/
def dosageAt : List Char → Bool
  | [] => false
  | c :: t =>
    c.isDigit &&
      (let rest := (t.dropWhile Char.isDigit).dropWhile isPySpace
       ["mg", "ml", "mcg", "units"].any (fun u => startsWithL u.data rest))

/-- Study-type pattern `(clinical|randomized|controlled)\s+(trial|study)`
tested at one position. -/
def studyTypeAt (l : List Char) : Bool :=
  ["clinical", "randomized", "controlled"].any (fun w =>
    startsWithL w.data l &&
      (let r := l.drop w.data.length
       !(r.takeWhile isPySpace).isEmpty &&
         ["trial", "study"].any (fun z => startsWithL z.data (r.dropWhile isPySpace))))

/-- Safety pattern `(side\s+effects|adverse\s+events)` tested at one
position. -/
def safetyAt (l : List Char) : Bool :=
  [("side", "effects"), ("adverse", "events")].any (fun pr =>
    startsWithL pr.1.data l &&
      (let r := l.drop pr.1.data.length
       !(r.takeWhile isPySpace).isEmpty &&
         startsWithL pr.2.data (r.dropWhile isPySpace)))

/-- Number of the four domain regexes of `_calculate_medical_relevance`
that match the text. -/
def medicalPatternCount (l : List Char) : Nat :=
  (if existsSuffix dosageAt l then 1 else 0) +
  (if existsSuffix studyTypeAt l then 1 else 0) +
  (if existsSuffix safetyAt l then 1 else 0) +
  (if ["efficacy", "effectiveness", "outcome"].any (fun w => inStr w.data l)
     then 1 else 0)

/-- Embedding of `MessageFilter._calculate_medical_relevance`. -/
def calculateMedicalRelevance (text : List Char) : ℚ :=
  let lc := lowerL text
  let words := pySplit lc
  if words.isEmpty then 0
  else
    let medicalWordCount :=
      words.countP (fun w => medicalKeywords.any (fun k => inStr k.data w))
    min 1 ((medicalWordCount : ℚ) / (words.length : ℚ) +
            (medicalPatternCount lc : ℚ) * (1 / 10))

/-- Embedding of `MessageFilter.filter_query`: returns (is_valid, cleaned_text,
reason).  The medium-severity patterns (acknowledgment, simple yes/no
reply) match but never cause rejection in the source, so they do not
affect the returned value and are elided; the high-severity patterns are
tried in source order. -/
def filterQuery (query_text : String) : Bool × List Char × String :=
  let cleaned := cleanText query_text.data
  if (stripL cleaned).length < 5 then (false, cleaned, "too_short")
  else
    let lc := lowerL cleaned
    if startsWithAny lc greetingStarts then (false, cleaned, "greeting")
    else if startsWithAny lc vagueStarts then (false, cleaned, "vague_query")
    else if 1 ≤ lc.length ∧ lc.length ≤ 3 then (false, cleaned, "too_short")
    else if spamMatch lc then (false, cleaned, "spam")
    else
      let medicalScore := calculateMedicalRelevance cleaned
      if medicalScore < 1 / 100 then (false, cleaned, "low_medical_relevance")
      else (true, cleaned, "valid")

/-- Count of non-space characters of a text: the quantity claim C5's
premise is phrased in (spec-side definition, used only to state C5). -/
def nonSpaceCount (l : List Char) : Nat :=
  (l.filter (fun c => !isPySpace c)).length

/-! ### healthcare_schema.py — data model

Python `Dict[str, str]` / `Dict[str, Any]` values whose internal shape the
embedded code never inspects are modelled as association lists
`List (String × String)`. -/

/-- Embedding of `QuerySchema`. -/
structure Query where
  query_id : String
  query_text : String
  query_type : String
  timestamp : String
  priority : String
  status : String
deriving DecidableEq

/-- Embedding of `LiteratureSummarySchema` (the free-text `researcher_notes` field
is carried as a plain string). -/
structure LiteratureSummary where
  summary_id : String
  title : String
  authors : List String
  publication_date : String
  journal : String
  abstract : String
  key_findings : List String
  treatment_focus : String
  population_studied : String
  confidence_score : ℚ
  researcher_notes : String
  approved : Bool
deriving DecidableEq

/-- Embedding of `TreatmentComparisonSchema` (the `efficacy_metrics`, `side_effects`
and `population_differences` dicts are opaque to every embedded
operation and modelled as association lists). -/
structure TreatmentComparison where
  comparison_id : String
  treatments : List String
  disease_condition : String
  efficacy_metrics : List (String × String)
  side_effects : List (String × String)
  population_differences : List (String × String)
  recommendation : String
  confidence_level : String
  sources : List String
deriving DecidableEq

/-- The response dict built by
`HealthcareStateManager.generate_response_node`. -/
structure GeneratedResponse where
  query_id : String
  response_type : String
  generated_content : String
  confidence_score : ℚ
  requires_approval : Bool
  timestamp : String
deriving DecidableEq

/-- One entry of the heterogeneous `session_responses` list: either a
generated response or the "memory_retrieval" context record appended by
`retrieve_memory_node` (whose `timestamp` field is elided, as no embedded
operation reads it). -/
inductive SessionEntry where
  | response (r : GeneratedResponse)
  | retrieval (summaries : List LiteratureSummary)
      (comparisons : List TreatmentComparison)
deriving DecidableEq

/-- Embedding of `HealthcareAgentState`. -/
structure HState where
  current_queries : List Query
  session_responses : List SessionEntry
  active_conversation : List (List (String × String))
  literature_summaries : List LiteratureSummary
  comparative_findings : List TreatmentComparison
  case_history : List (List (String × String))
  research_projects : List (List (String × String))
  researcher_id : String
  project_id : String
  disease_focus : String
  session_id : String
  timestamp : String
  memory_trimmed : Bool
  message_count : Nat
  pending_approvals : List (List (String × String))
  approved_summaries : List (List (String × String))
  flagged_content : List (List (String × String))
deriving DecidableEq

/-! ### memory_manager.py — short-term trimming -/

/-- Python's `l[-n:]` as used by the trimming code: for `n ≥ 1` the last
`n` elements; for `n = 0` the slice `l[-0:] = l[0:]` is the whole list. -/
def pyLastSlice (n : Nat) (l : List α) : List α :=
  if n = 0 then l else l.drop (l.length - n)

/-- Embedding of `HealthcareMemoryManager.trim_short_term_memory`, whose
`max_items` parameter defaults to 7 in the source (the identical
`MessageFilter.trim_short_term_memory` trims the same three lists with
`max_short_term_queries` in place of `max_items`). -/
def trimShortTermMemory (state : HState) (max_items : Nat) : HState :=
  let s1 :=
    if max_items < state.session_responses.length then
      { state with
        session_responses := pyLastSlice max_items state.session_responses
        memory_trimmed := true }
    else state
  let s2 :=
    if max_items < s1.active_conversation.length then
      { s1 with
        active_conversation := pyLastSlice max_items s1.active_conversation
        memory_trimmed := true }
    else s1
  let s3 :=
    if max_items < s2.current_queries.length then
      { s2 with
        current_queries := pyLastSlice max_items s2.current_queries
        memory_trimmed := true }
    else s2
  s3

/-- The trimming contract claim C1 states (spec-side definition): after
trimming with maximum `M`, every bounded list has length at most `M`; a
list that was longer than `M` keeps exactly its last `M` elements in
order; if any list was longer than `M` the `memory_trimmed` flag is set;
a list already at or below `M` is unchanged. -/
def TrimSpec (s : HState) (M : Nat) : Prop :=
  let s' := trimShortTermMemory s M
  (s'.session_responses.length ≤ M ∧
   s'.active_conversation.length ≤ M ∧
   s'.current_queries.length ≤ M) ∧
  (M < s.session_responses.length →
    s'.session_responses =
      s.session_responses.drop (s.session_responses.length - M)) ∧
  (M < s.active_conversation.length →
    s'.active_conversation =
      s.active_conversation.drop (s.active_conversation.length - M)) ∧
  (M < s.current_queries.length →
    s'.current_queries =
      s.current_queries.drop (s.current_queries.length - M)) ∧
  ((M < s.session_responses.length ∨ M < s.active_conversation.length ∨
      M < s.current_queries.length) → s'.memory_trimmed = true) ∧
  (s.session_responses.length ≤ M →
    s'.session_responses = s.session_responses) ∧
  (s.active_conversation.length ≤ M →
    s'.active_conversation = s.active_conversation) ∧
  (s.current_queries.length ≤ M →
    s'.current_queries = s.current_queries)

/-! ### state_management.py — HealthcareStateManager nodes -/

/-- Greeting list of `HealthcareStateManager._is_informational_query`
(which receives text the caller already lower-cased and stripped). -/
def smGreetings : List String :=
  ["hello", "hi", "hey", "good morning", "good afternoon"]

/-- Vague-term list of `_is_informational_query`. -/
def smVagueTerms : List String :=
  ["help", "what can you do", "how are you"]

/-- Short medical-keyword list of `_is_informational_query`. -/
def smMedicalKeywords : List String :=
  [ "treatment", "therapy", "drug", "medication", "clinical", "trial",
    "disease", "diagnosis", "patient", "efficacy", "side effects",
    "literature", "research", "study", "pubmed", "journal" ]

/-- Embedding of `HealthcareStateManager._is_informational_query` proper
(all three word lists are local constants in the source). -/
def isInformationalQuery (query_text : List Char) : Bool :=
  if smGreetings.any (fun g => inStr g.data query_text) then false
  else if smVagueTerms.any (fun v => inStr v.data query_text) then false
  else smMedicalKeywords.any (fun k => inStr k.data query_text)

/-- Embedding of `HealthcareStateManager.filter_input_node`. -/
def filterInputNode (state : HState) : HState :=
  if state.current_queries.isEmpty then state
  else
    { state with
      current_queries :=
        state.current_queries.filter (fun q =>
          isInformationalQuery (stripL (lowerL q.query_text.data))) }

/-- Embedding of `HealthcareStateManager.process_query_node`. -/
def processQueryNode (state : HState) : HState :=
  if state.current_queries.isEmpty then state
  else
    let processed := state.current_queries.map (fun q =>
      let lc := lowerL q.query_text.data
      let qType :=
        if ["compare", "versus", "vs", "difference"].any
             (fun t => inStr t.data lc) then "treatment_comparison"
        else if ["literature", "research", "studies", "papers"].any
             (fun t => inStr t.data lc) then "literature_search"
        else "clinical_question"
      let qPriority :=
        if ["urgent", "critical", "emergency"].any
             (fun t => inStr t.data lc) then "critical"
        else if ["important", "priority"].any
             (fun t => inStr t.data lc) then "high"
        else "medium"
      { q with query_type := qType, priority := qPriority,
               status := "processing" })
    { state with
      current_queries := processed
      message_count := state.message_count + processed.length }

/-- Query-type assignment as claim C7 words it (spec-side definition,
ordered keyword rules with the first match winning). -/
def specQueryType (query_text : String) : String :=
  let lc := lowerL query_text.data
  if ["compare", "versus", "vs", "difference"].any
       (fun t => inStr t.data lc) then "treatment_comparison"
  else if ["literature", "research", "studies", "papers"].any
       (fun t => inStr t.data lc) then "literature_search"
  else "clinical_question"

/-- Priority assignment as claim C7 words it (spec-side definition). -/
def specQueryPriority (query_text : String) : String :=
  let lc := lowerL query_text.data
  if ["urgent", "critical", "emergency"].any
       (fun t => inStr t.data lc) then "critical"
  else if ["important", "priority"].any
       (fun t => inStr t.data lc) then "high"
  else "medium"

/-- The relevance test `retrieve_memory_node` applies to one literature
summary.  `none` models the `IndexError` raised by
`summary["key_findings"][0]` on an empty list; the Python generator
expression only evaluates that indexing if at least one query term
survives the `len(term) > 3` filter. -/
def summaryRelevant (diseaseFocus queryText : List Char)
    (sm : LiteratureSummary) : Option Bool :=
  if inStr diseaseFocus (lowerL sm.treatment_focus.data) then some true
  else
    let terms := (pySplit queryText).filter (fun w => 3 < w.length)
    if terms.isEmpty then some false
    else
      match sm.key_findings with
      | [] => none
      | firstFinding :: _ =>
        some (terms.any (fun t => inStr t (lowerL firstFinding.data)))

/-- The relevance test `retrieve_memory_node` applies to one treatment
comparison (total: it indexes nothing). -/
def comparisonRelevant (diseaseFocus queryText : List Char)
    (cp : TreatmentComparison) : Bool :=
  inStr diseaseFocus (lowerL cp.disease_condition.data) ||
    cp.treatments.any (fun tr => inStr (lowerL tr.data) queryText)

/-- The scan of `retrieve_memory_node`: for each current query, in order,
append the matching summaries then the matching comparisons; `none`
propagates the `IndexError` of `summaryRelevant`. -/
def collectRelevant (state : HState) :
    Option (List LiteratureSummary × List TreatmentComparison) :=
  state.current_queries.foldlM (fun acc q =>
    ((state.literature_summaries.foldlM (fun l sm =>
        (summaryRelevant (lowerL state.disease_focus.data)
            (lowerL q.query_text.data) sm).map
          (fun b => if b then l ++ [sm] else l)) acc.1).map
      (fun sums =>
        (sums,
         state.comparative_findings.foldl (fun l cp =>
           if comparisonRelevant (lowerL state.disease_focus.data)
               (lowerL q.query_text.data) cp then l ++ [cp] else l)
           acc.2))))
    ([], [])

/-- Embedding of `HealthcareStateManager.retrieve_memory_node`; `none` models the
uncaught `IndexError`. -/
def retrieveMemoryNode (state : HState) : Option HState :=
  if state.current_queries.isEmpty then some state
  else
    (collectRelevant state).map (fun rc =>
      if rc.1.isEmpty && rc.2.isEmpty then state
      else
        { state with
          session_responses := state.session_responses ++
            [SessionEntry.retrieval (rc.1.take 3) (rc.2.take 2)] })

/-! ### human_loop_integration.py — HumanInTheLoopManager -/

/-- A content dict submitted for gating.  `priority`, `confidence_score`
and `journal` model `content.get(...)` with their source defaults;
`serialized` models `json.dumps(content)`, the text scanned by the
sensitive-keyword rule (carried explicitly since the embedding does not
re-serialize). -/
structure Content where
  priority : Option String
  confidence_score : Option ℚ
  journal : Option String
  serialized : String
deriving DecidableEq

/-- The manager's `quality_thresholds['confidence_threshold']` default. -/
def defaultConfidenceThreshold : ℚ := 7 / 10

/-- Embedding of `HumanInTheLoopManager._is_high_impact_literature`. -/
def isHighImpactLiterature (content : Content) : Bool :=
  let highImpactJournals :=
    [ "new england journal of medicine", "the lancet", "jama",
      "nature medicine", "science", "cell", "british medical journal",
      "annals of internal medicine" ]
  highImpactJournals.any (fun j =>
    inStr j.data (lowerL (content.journal.getD "").data))

/-- Embedding of `HumanInTheLoopManager._contains_sensitive_content`. -/
def containsSensitiveContent (content : Content) : Bool :=
  let sensitiveKeywords :=
    [ "contraindicated", "black box warning", "fatal", "mortality",
      "severe adverse", "emergency", "toxic", "overdose" ]
  sensitiveKeywords.any (fun k => inStr k.data (lowerL content.serialized.data))

/-- Embedding of `HumanInTheLoopManager.requires_approval`;
`confidence_threshold` is the manager's configured
`quality_thresholds['confidence_threshold']` (default 0.7). -/
def requiresApproval (confidence_threshold : ℚ) (content : Content)
    (content_type : String) : Bool :=
  if content.priority = some "critical" then true
  else if content.confidence_score.getD 0 < confidence_threshold then true
  else if content_type = "treatment_comparison" then true
  else if content_type = "literature_summary" ∧
          isHighImpactLiterature content then true
  else if containsSensitiveContent content then true
  else false

/-- The response dict built by `process_approval_response`. -/
structure ApprovalResponse where
  approval_id : String
  decision : String
  feedback : Option String
  reviewer_id : Option String
deriving DecidableEq

/-- Result of one `process_approval_response` call: the returned response
plus which registered callback class is invoked for the decision (the
callbacks are the function's only effect; the manager keeps no record of
past decisions, so the manager state is not an input or output here —
faithful to the source, where the method reads `approval_callbacks` and
mutates nothing). -/
structure ReviewOutcome where
  response : ApprovalResponse
  callback_invoked : Option String
deriving DecidableEq

/-- Embedding of `HumanInTheLoopManager.process_approval_response`, whose
`feedback` and `reviewer_id` parameters default to None in the source (the
timestamp and
constant-`None` `review_duration` fields of the response dict are
elided). -/
def processApprovalResponse (approval_id : String) (decision : String)
    (feedback : Option String) (reviewer_id : Option String) :
    ReviewOutcome :=
  let response : ApprovalResponse :=
    { approval_id := approval_id, decision := decision,
      feedback := feedback, reviewer_id := reviewer_id }
  let fired :=
    if decision = "approved" then some "approved"
    else if decision = "rejected" then some "rejected"
    else if decision = "revision_requested" then some "revision_requested"
    else none
  { response := response, callback_invoked := fired }

/-- Word set used by `MessageFilter._calculate_query_similarity`: lower-cased
whitespace-split words of a text. -/
def wordSet (text : String) : Finset String :=
  ((pySplit (lowerL text.data)).map (fun w => String.mk w)).toFinset

/-- Embedding of `MessageFilter._calculate_query_similarity` (Jaccard similarity). -/
def calculateQuerySimilarity (text1 text2 : String) : ℚ :=
  let words1 := wordSet text1
  let words2 := wordSet text2
  if words1 = ∅ ∨ words2 = ∅ then 0
  else
    let intersection := words1 ∩ words2
    let union := words1 ∪ words2
    if union = ∅ then 0 else (intersection.card : ℚ) / (union.card : ℚ)

/-! ### Concrete fixtures used by witnesses and counterexamples -/

/-- A fresh session state, as built by `create_initial_state` (with fixed
identity fields in place of the generated uuid and timestamp). -/
def emptyHState : HState :=
  { current_queries := [], session_responses := [], active_conversation := [],
    literature_summaries := [], comparative_findings := [], case_history := [],
    research_projects := [], researcher_id := "r1", project_id := "p1",
    disease_focus := "diabetes", session_id := "s1", timestamp := "t0",
    memory_trimmed := false, message_count := 0, pending_approvals := [],
    approved_summaries := [], flagged_content := [] }

/-- A query fixture with the given text. -/
def sampleQuery (txt : String) : Query :=
  { query_id := "q1", query_text := txt, query_type := "clinical_question",
    timestamp := "t0", priority := "medium", status := "pending" }

/-- A literature-summary fixture with the given treatment focus and key
findings. -/
def sampleSummary (tf : String) (kf : List String) : LiteratureSummary :=
  { summary_id := "ls1", title := "T", authors := [], publication_date := "2024",
    journal := "J", abstract := "A", key_findings := kf, treatment_focus := tf,
    population_studied := "adults", confidence_score := 1,
    researcher_notes := "", approved := false }

/-- A session state with exactly one session response. -/
def oneRespState : HState :=
  { emptyHState with session_responses := [SessionEntry.retrieval [] []] }

/-- A session state whose only query has no word longer than 3 characters
and whose only literature summary has empty key findings and a treatment
focus not mentioning the disease focus. -/
def shortQueryState : HState :=
  { emptyHState with
    current_queries := [sampleQuery "flu"]
    literature_summaries := [sampleSummary "alpha" []]
    disease_focus := "beta" }

/-- A session state whose query has a word longer than 3 characters,
facing the same degenerate literature summary. -/
def longQueryState : HState :=
  { emptyHState with
    current_queries := [sampleQuery "diabetes treatment options"]
    literature_summaries := [sampleSummary "alpha" []]
    disease_focus := "beta" }

/-- Content fixture with critical priority. -/
def criticalContent : Content :=
  { priority := some "critical", confidence_score := some 1, journal := none,
    serialized := "x" }

/-- Content fixture with high confidence and nothing special. -/
def plainContent : Content :=
  { priority := none, confidence_score := some 1, journal := none,
    serialized := "x" }

/-- Content fixture with no confidence_score field at all. -/
def noScoreContent : Content :=
  { priority := none, confidence_score := none, journal := none,
    serialized := "x" }

/-- The per-list trimming step in normal form. -/
def trimList {α : Type} (n : Nat) (l : List α) : List α :=
  if n < l.length then pyLastSlice n l else l

/-! ### Helper lemmas -/

/-- A list slice `l[-n:]` never grows the list. -/
theorem pyLastSlice_of_le {α : Type} {n : Nat} {l : List α}
    (h : l.length ≤ n) : pyLastSlice n l = l := by
  unfold pyLastSlice
  split
  · rfl
  · rw [Nat.sub_eq_zero_of_le h, List.drop_zero]

/-- For a positive bound, `l[-n:]` has length at most `n`. -/
theorem pyLastSlice_length_le {α : Type} {n : Nat} (hn : n ≠ 0)
    (l : List α) : (pyLastSlice n l).length ≤ n := by
  unfold pyLastSlice
  rw [if_neg hn, List.length_drop]
  omega

/-- Slicing with `n = 0` is the identity (`l[-0:]` is `l[0:]`). -/
theorem pyLastSlice_zero {α : Type} (l : List α) : pyLastSlice 0 l = l := by
  unfold pyLastSlice
  rw [if_pos rfl]

/-- Closed form of `trimShortTermMemory`. -/
theorem trimShortTermMemory_eq (s : HState) (M : Nat) :
    trimShortTermMemory s M =
      { s with
        session_responses := trimList M s.session_responses
        active_conversation := trimList M s.active_conversation
        current_queries := trimList M s.current_queries
        memory_trimmed :=
          if M < s.session_responses.length ∨
             M < s.active_conversation.length ∨
             M < s.current_queries.length then true
          else s.memory_trimmed } := by
  unfold trimShortTermMemory trimList
  by_cases h1 : M < s.session_responses.length <;>
    by_cases h2 : M < s.active_conversation.length <;>
      by_cases h3 : M < s.current_queries.length <;>
        simp [h1, h2, h3]

/-- Trimming a list twice with the same bound changes nothing more. -/
theorem trimList_idem {α : Type} (n : Nat) (l : List α) :
    trimList n (trimList n l) = trimList n l := by
  unfold trimList
  by_cases h : n < l.length
  · rw [if_pos h]
    by_cases hn : n = 0
    · subst hn
      rw [pyLastSlice_zero, if_pos h, pyLastSlice_zero]
    · rw [if_neg (by have := pyLastSlice_length_le hn l; omega)]
  · rw [if_neg h, if_neg h]

/-- A list that is still too long after trimming was too long before. -/
theorem lt_length_of_lt_trimList {α : Type} {n : Nat} {l : List α}
    (h : n < (trimList n l).length) : n < l.length := by
  unfold trimList at h
  by_cases hc : n < l.length
  · exact hc
  · rw [if_neg hc] at h
    exact h

/-- For a positive bound, a trimmed list is no longer than the bound. -/
theorem trimList_length_le {α : Type} {n : Nat} (hn : n ≠ 0) (l : List α) :
    (trimList n l).length ≤ n := by
  unfold trimList
  by_cases h : n < l.length
  · rw [if_pos h]
    exact pyLastSlice_length_le hn l
  · rw [if_neg h]
    omega

/-- For a positive bound, trimming a too-long list keeps the last `n`
elements. -/
theorem trimList_of_lt {α : Type} {n : Nat} {l : List α}
    (h : n < l.length) (hn : n ≠ 0) :
    trimList n l = l.drop (l.length - n) := by
  unfold trimList pyLastSlice
  rw [if_pos h, if_neg hn]

/-- Trimming a list already within the bound is the identity. -/
theorem trimList_of_le {α : Type} {n : Nat} {l : List α}
    (h : l.length ≤ n) : trimList n l = l := by
  unfold trimList
  rw [if_neg (by omega)]

/-- Claim C1 (amended): for every session state and every configured
maximum `M ≥ 1`, after `trim_short_term_memory` each of the three bounded
lists has length at most `M`; any list that was longer than `M` keeps
exactly its last `M` elements in their original relative order and
`memory_trimmed` is set to true; lists already at or below `M` are left
unchanged.  (At `M = 0` Python's `l[-0:]` slice keeps the whole list, so
the bound fails there; see the counterexample.) -/
theorem trim_short_term_memory_spec (s : HState) (M : Nat) (hM : 1 ≤ M) :
    TrimSpec s M := by
  have hM0 : M ≠ 0 := by omega
  simp only [TrimSpec]
  rw [trimShortTermMemory_eq]
  dsimp only
  exact ⟨⟨trimList_length_le hM0 _, trimList_length_le hM0 _,
          trimList_length_le hM0 _⟩,
         fun h => trimList_of_lt h hM0,
         fun h => trimList_of_lt h hM0,
         fun h => trimList_of_lt h hM0,
         fun h => if_pos h,
         fun h => trimList_of_le h,
         fun h => trimList_of_le h,
         fun h => trimList_of_le h⟩

/-- Witness for claim C1: the amended contract instantiated at a concrete
state and the default maximum 7. -/
theorem trim_short_term_memory_spec_witness : 1 ≤ 7 ∧ TrimSpec oneRespState 7 :=
  ⟨by decide, trim_short_term_memory_spec oneRespState 7 (by decide)⟩

/-- Counterexample for claim C1 as stated: with configured maximum
`M = 0` and one session response, the Python slice `l[-0:]` keeps the
whole list, so after trimming the list still has length 1 > M and is not
equal to its last 0 elements, although `memory_trimmed` was set. -/
theorem trim_short_term_memory_counterexample :
    0 < oneRespState.session_responses.length ∧
    (trimShortTermMemory oneRespState 0).session_responses =
      oneRespState.session_responses ∧
    ¬ (trimShortTermMemory oneRespState 0).session_responses.length ≤ 0 ∧
    (trimShortTermMemory oneRespState 0).memory_trimmed = true := by
  refine ⟨by decide, by decide, by decide, by decide⟩

/-- Claim C6: short-term trimming is idempotent — applying
`trim_short_term_memory` twice with the same maximum yields exactly the
state (flag included) of applying it once, for every state and every
maximum. -/
theorem trim_short_term_memory_idempotent (s : HState) (M : Nat) :
    trimShortTermMemory (trimShortTermMemory s M) M =
      trimShortTermMemory s M := by
  rw [trimShortTermMemory_eq (trimShortTermMemory s M) M,
      trimShortTermMemory_eq s M]
  dsimp only
  simp only [HState.mk.injEq, trimList_idem, and_true, true_and]
  by_cases hc : M < (trimList M s.session_responses).length ∨
      M < (trimList M s.active_conversation).length ∨
      M < (trimList M s.current_queries).length
  · have horig : M < s.session_responses.length ∨
        M < s.active_conversation.length ∨
        M < s.current_queries.length := by
      rcases hc with h | h | h
      · exact Or.inl (lt_length_of_lt_trimList h)
      · exact Or.inr (Or.inl (lt_length_of_lt_trimList h))
      · exact Or.inr (Or.inr (lt_length_of_lt_trimList h))
    rw [if_pos hc, if_pos horig]
  · rw [if_neg hc]

/-- Claim C2: `requires_approval` returns true for every critical-priority
content regardless of confidence, and for every content of type
treatment_comparison regardless of priority and confidence — for every
configured confidence threshold. -/
theorem requires_approval_critical_and_comparison (th : ℚ) (c : Content)
    (ct : String) :
    (c.priority = some "critical" → requiresApproval th c ct = true) ∧
    (ct = "treatment_comparison" → requiresApproval th c ct = true) := by
  constructor
  · intro h
    unfold requiresApproval
    rw [if_pos h]
  · intro h
    unfold requiresApproval
    split_ifs <;> simp_all

/-- Witness for claim C2 at concrete contents. -/
theorem requires_approval_critical_and_comparison_witness :
    requiresApproval (7 / 10) criticalContent "clinical_question" = true ∧
    requiresApproval (7 / 10) plainContent "treatment_comparison" = true :=
  ⟨(requires_approval_critical_and_comparison (7 / 10) criticalContent
      "clinical_question").1 rfl,
   (requires_approval_critical_and_comparison (7 / 10) plainContent
      "treatment_comparison").2 rfl⟩

/-- Claim C10: content without a confidence_score field is always gated:
`content.get('confidence_score', 0)` yields 0, which is below the default
threshold 0.7, so `requires_approval` returns true for every content
type. -/
theorem requires_approval_of_no_confidence (c : Content) (ct : String)
    (h : c.confidence_score = none) :
    requiresApproval defaultConfidenceThreshold c ct = true := by
  unfold requiresApproval
  by_cases hp : c.priority = some "critical"
  · rw [if_pos hp]
  · rw [if_neg hp, if_pos]
    rw [h]
    norm_num [defaultConfidenceThreshold]

/-- Witness for claim C10 at a concrete content record. -/
theorem requires_approval_of_no_confidence_witness :
    requiresApproval defaultConfidenceThreshold noScoreContent
      "literature_summary" = true :=
  requires_approval_of_no_confidence noScoreContent "literature_summary" rfl

/-- Claim C4, evaluated at the failing input: `process_approval_response`
keeps no record of decisions, so a second decision for the same approval
id is processed exactly like the first — it returns a fresh normal
response carrying the new decision and fires that decision's callback; no
stateful error exists in the code. -/
theorem process_approval_response_resubmission :
    (processApprovalResponse "approval-1" "approved" none none).response.decision
        = "approved" ∧
    (processApprovalResponse "approval-1" "rejected" none none).response =
      { approval_id := "approval-1", decision := "rejected",
        feedback := none, reviewer_id := none } ∧
    (processApprovalResponse "approval-1" "rejected" none none).callback_invoked
        = some "rejected" :=
  ⟨rfl, rfl, rfl⟩

/-- Claim C8: the duplicate-detection Jaccard similarity is symmetric,
equals 1 on any text with a non-empty word set compared with itself, and
is 0 whenever either word set is empty. -/
theorem query_similarity_props :
    (∀ a b, calculateQuerySimilarity a b = calculateQuerySimilarity b a) ∧
    (∀ a, wordSet a ≠ ∅ → calculateQuerySimilarity a a = 1) ∧
    (∀ a b, wordSet a = ∅ ∨ wordSet b = ∅ →
      calculateQuerySimilarity a b = 0) := by
  refine ⟨?_, ?_, ?_⟩
  · intro a b
    unfold calculateQuerySimilarity
    by_cases ha : wordSet a = ∅ <;> by_cases hb : wordSet b = ∅ <;>
      simp [ha, hb, Finset.union_comm, Finset.inter_comm]
  · intro a ha
    unfold calculateQuerySimilarity
    rw [if_neg (by simp [ha]), Finset.union_self, Finset.inter_self,
        if_neg ha]
    have hcard : (wordSet a).card ≠ 0 := fun h => ha (Finset.card_eq_zero.mp h)
    exact div_self (Nat.cast_ne_zero.mpr hcard)
  · intro a b h
    unfold calculateQuerySimilarity
    rw [if_pos h]

/-- Witness for claim C8 at concrete texts. -/
theorem query_similarity_props_witness :
    calculateQuerySimilarity "alpha beta" "beta alpha" =
      calculateQuerySimilarity "beta alpha" "alpha beta" ∧
    calculateQuerySimilarity "diabetes" "diabetes" = 1 ∧
    calculateQuerySimilarity "" "diabetes" = 0 :=
  ⟨query_similarity_props.1 "alpha beta" "beta alpha",
   query_similarity_props.2.1 "diabetes" (by decide),
   query_similarity_props.2.2 "" "diabetes" (Or.inl (by decide))⟩

/-- Claim C7: `process_query_node` assigns `query_type` and `priority` to
every current query by the spec's ordered keyword rules, first match
winning, and sets status to processing. -/
theorem process_query_node_classifies (s : HState) :
    (processQueryNode s).current_queries =
      s.current_queries.map (fun q =>
        { q with query_type := specQueryType q.query_text,
                 priority := specQueryPriority q.query_text,
                 status := "processing" }) := by
  unfold processQueryNode specQueryType specQueryPriority
  by_cases h : s.current_queries.isEmpty
  · rw [if_pos h]
    rw [List.isEmpty_iff.mp h]
    rfl
  · rw [if_neg h]

/-- The accepting branch of `filter_query`: when none of the rejection
rules fires, the query is returned as valid with its cleaned text. -/
theorem filterQuery_valid (t : String)
    (h1 : ¬ (stripL (cleanText t.data)).length < 5)
    (h2 : startsWithAny (lowerL (cleanText t.data)) greetingStarts = false)
    (h3 : startsWithAny (lowerL (cleanText t.data)) vagueStarts = false)
    (h4 : ¬ (1 ≤ (lowerL (cleanText t.data)).length ∧
              (lowerL (cleanText t.data)).length ≤ 3))
    (h5 : spamMatch (lowerL (cleanText t.data)) = false)
    (h6 : ¬ calculateMedicalRelevance (cleanText t.data) < 1 / 100) :
    filterQuery t = (true, cleanText t.data, "valid") := by
  unfold filterQuery
  rw [if_neg h1, if_neg (by simp [h2]), if_neg (by simp [h3]), if_neg h4,
      if_neg (by simp [h5]), if_neg h6]

/-- The low-relevance branch of `filter_query`. -/
theorem filterQuery_low_relevance (t : String)
    (h1 : ¬ (stripL (cleanText t.data)).length < 5)
    (h2 : startsWithAny (lowerL (cleanText t.data)) greetingStarts = false)
    (h3 : startsWithAny (lowerL (cleanText t.data)) vagueStarts = false)
    (h4 : ¬ (1 ≤ (lowerL (cleanText t.data)).length ∧
              (lowerL (cleanText t.data)).length ≤ 3))
    (h5 : spamMatch (lowerL (cleanText t.data)) = false)
    (h6 : calculateMedicalRelevance (cleanText t.data) < 1 / 100) :
    filterQuery t = (false, cleanText t.data, "low_medical_relevance") := by
  unfold filterQuery
  rw [if_neg h1, if_neg (by simp [h2]), if_neg (by simp [h3]), if_neg h4,
      if_neg (by simp [h5]), if_pos h6]

/-- Closed form of the medical-relevance score on a text with at least
one word. -/
theorem calculateMedicalRelevance_eq (t : List Char)
    (h : (pySplit (lowerL t)).isEmpty = false) :
    calculateMedicalRelevance t =
      min 1 (((pySplit (lowerL t)).countP
                (fun w => medicalKeywords.any (fun k => inStr k.data w)) : ℚ) /
              ((pySplit (lowerL t)).length : ℚ) +
             (medicalPatternCount (lowerL t) : ℚ) * (1 / 10)) := by
  unfold calculateMedicalRelevance
  rw [if_neg (by simp [h])]

/-- Claim C5 (amended): `filter_query` rejects with reason too_short
exactly when the cleaned text, stripped of leading and trailing
whitespace, has total length (interior spaces included) below 5; the
cleaned text is returned with the rejection. -/
theorem filter_query_too_short (t : String)
    (h : (stripL (cleanText t.data)).length < 5) :
    filterQuery t = (false, cleanText t.data, "too_short") := by
  unfold filterQuery
  rw [if_pos h]

/-- Witness for claim C5 at the concrete input "ab". -/
theorem filter_query_too_short_witness :
    (stripL (cleanText "ab".data)).length < 5 ∧
    filterQuery "ab" = (false, cleanText "ab".data, "too_short") :=
  ⟨by decide, filter_query_too_short "ab" (by decide)⟩

/-- Counterexample for claim C5 as stated: the input "a b c" has only 3
non-space characters after cleaning, yet the filter does not reject it as
too_short — the length check counts interior spaces, so the cleaned text
"a b c" has length 5 and the query instead falls through to the
low-medical-relevance rejection. -/
theorem filter_query_too_short_counterexample :
    nonSpaceCount (cleanText "a b c".data) = 3 ∧
    filterQuery "a b c" = (false, cleanText "a b c".data,
      "low_medical_relevance") := by
  have hscore : calculateMedicalRelevance (cleanText "a b c".data) < 1 / 100 := by
    rw [calculateMedicalRelevance_eq _ (by decide)]
    have hc : (pySplit (lowerL (cleanText "a b c".data))).countP
        (fun w => medicalKeywords.any (fun k => inStr k.data w)) = 0 := by decide
    have hl : (pySplit (lowerL (cleanText "a b c".data))).length = 3 := by decide
    have hp : medicalPatternCount (lowerL (cleanText "a b c".data)) = 0 := by
      decide
    rw [hc, hl, hp]
    norm_num
  exact ⟨by decide,
    filterQuery_low_relevance "a b c" (by decide) (by decide) (by decide)
      (by decide) (by decide) hscore⟩

/-- Counterexample for claim C3 as stated: the medically relevant
informational query "treatment of hip fracture" is accepted by the
standalone relevance filter but dropped by the session-embedded filter,
whose substring-based greeting check matches the "hi" inside "hip". -/
theorem filter_consistency_counterexample :
    isInformationalQuery (stripL (lowerL "treatment of hip fracture".data))
        = false ∧
    (filterQuery "treatment of hip fracture").1 = true := by
  have hscore : ¬ calculateMedicalRelevance
      (cleanText "treatment of hip fracture".data) < 1 / 100 := by
    rw [calculateMedicalRelevance_eq _ (by decide)]
    have hc : (pySplit (lowerL (cleanText "treatment of hip fracture".data))).countP
        (fun w => medicalKeywords.any (fun k => inStr k.data w)) = 1 := by decide
    have hl : (pySplit (lowerL (cleanText "treatment of hip fracture".data))).length
        = 4 := by decide
    have hp : medicalPatternCount
        (lowerL (cleanText "treatment of hip fracture".data)) = 0 := by decide
    rw [hc, hl, hp]
    norm_num
  refine ⟨by decide, ?_⟩
  rw [filterQuery_valid "treatment of hip fracture" (by decide) (by decide)
    (by decide) (by decide) (by decide) hscore]

/-- Claim C3 (amended): the two filter entry points agree on rejecting
bare greetings and the embedded filter's vague meta-queries, and the
embedded filter accepts a query only when it contains one of its medical
keywords; full behavioral consistency between the two entry points does
not hold (see the counterexample: the embedded filter's substring
greeting check drops medically relevant queries the standalone filter
accepts). -/
theorem filter_consistency_amended :
    (isInformationalQuery (stripL (lowerL "hello".data)) = false ∧
      (filterQuery "hello").1 = false) ∧
    (isInformationalQuery (stripL (lowerL "how are you".data)) = false ∧
      (filterQuery "how are you").1 = false) ∧
    (∀ t : List Char, isInformationalQuery t = true →
      ∃ k ∈ smMedicalKeywords, inStr k.data t = true) := by
  refine ⟨⟨by decide, by decide⟩, ⟨by decide, by decide⟩, ?_⟩
  intro t h
  unfold isInformationalQuery at h
  split_ifs at h
  exact List.any_eq_true.mp h

/-- Witness for claim C3: the embedded filter accepts "treatment", which
indeed contains one of its medical keywords. -/
theorem filter_consistency_witness :
    isInformationalQuery ("treatment".data) = true ∧
    ∃ k ∈ smMedicalKeywords, inStr k.data ("treatment".data) = true :=
  ⟨by decide, filter_consistency_amended.2.2 ("treatment".data) (by decide)⟩

/-- A monadic fold over `Option` fails whenever some list element makes
the step fail for every accumulator. -/
theorem foldlM_option_none {α β : Type} {f : β → α → Option β} {l : List α}
    {a : α} (ha : a ∈ l) (hf : ∀ b, f b a = none) (init : β) :
    List.foldlM f init l = none := by
  induction l generalizing init with
  | nil => cases ha
  | cons x t ih =>
    rw [List.foldlM_cons]
    rcases List.mem_cons.mp ha with rfl | hmem
    · rw [hf init]
      rfl
    · cases hfx : f init x with
      | none => rfl
      | some b => exact ih hmem b

/-- The summary relevance check raises (returns `none`) on a summary with
empty key findings whose treatment focus misses the disease focus, as
soon as the query has a word longer than 3 characters. -/
theorem summaryRelevant_none {df qt : List Char} {sm : LiteratureSummary}
    (hkf : sm.key_findings = [])
    (htf : inStr df (lowerL sm.treatment_focus.data) = false)
    (hterm : ∃ w ∈ pySplit qt, 3 < w.length) :
    summaryRelevant df qt sm = none := by
  obtain ⟨w, hw, hlen⟩ := hterm
  have hmem : w ∈ (pySplit qt).filter (fun w => 3 < w.length) :=
    List.mem_filter.mpr ⟨hw, by simpa using hlen⟩
  have hne : ((pySplit qt).filter (fun w => 3 < w.length)).isEmpty = false := by
    cases hfl : (pySplit qt).filter (fun w => 3 < w.length)
    · rw [hfl] at hmem
      cases hmem
    · rfl
  simp only [summaryRelevant]
  rw [if_neg (by simp [htf]), if_neg (by simp [hne]), hkf]

/-- Claim C9 (amended): `retrieve_memory_node` is not total — it hits the
unguarded `key_findings[0]` index whenever some current query has a word
longer than 3 characters and some stored literature summary has empty
key findings and a treatment focus that does not contain the disease
focus (case-insensitively). -/
theorem retrieve_memory_node_index_error (s : HState)
    (hq : ∃ q ∈ s.current_queries,
      ∃ w ∈ pySplit (lowerL q.query_text.data), 3 < w.length)
    (hs : ∃ sm ∈ s.literature_summaries, sm.key_findings = [] ∧
      inStr (lowerL s.disease_focus.data) (lowerL sm.treatment_focus.data)
        = false) :
    retrieveMemoryNode s = none := by
  obtain ⟨q, hqmem, w, hwmem, hwlen⟩ := hq
  obtain ⟨sm, hsmem, hkf, htf⟩ := hs
  have hne : s.current_queries.isEmpty = false := by
    cases hcq : s.current_queries
    · rw [hcq] at hqmem
      cases hqmem
    · rfl
  have hfail : summaryRelevant (lowerL s.disease_focus.data)
      (lowerL q.query_text.data) sm = none :=
    summaryRelevant_none hkf htf ⟨w, hwmem, hwlen⟩
  have hcoll : collectRelevant s = none := by
    unfold collectRelevant
    apply foldlM_option_none hqmem
    intro acc
    have h1 : List.foldlM (fun l sm' =>
        (summaryRelevant (lowerL s.disease_focus.data)
            (lowerL q.query_text.data) sm').map
          (fun b => if b then l ++ [sm'] else l)) acc.1
        s.literature_summaries = none :=
      foldlM_option_none hsmem (fun l => by rw [hfail]; rfl) acc.1
    rw [h1]
    rfl
  unfold retrieveMemoryNode
  rw [if_neg (by simp [hne]), hcoll]
  rfl

/-- Witness for claim C9: a concrete state whose query "diabetes
treatment options" has long words and whose summary has empty key
findings and an unrelated treatment focus makes the node fail. -/
theorem retrieve_memory_node_index_error_witness :
    retrieveMemoryNode longQueryState = none :=
  retrieve_memory_node_index_error longQueryState
    (by decide) (by decide)

/-- Counterexample for claim C9 as stated: with the degenerate summary
present but a query ("flu") having no word longer than 3 characters, the
generator in the relevance check yields no term, `key_findings[0]` is
never evaluated, and the node completes normally. -/
theorem retrieve_memory_node_counterexample :
    shortQueryState.current_queries.length = 1 ∧
    (∃ sm ∈ shortQueryState.literature_summaries, sm.key_findings = [] ∧
      inStr (lowerL shortQueryState.disease_focus.data)
        (lowerL sm.treatment_focus.data) = false) ∧
    (retrieveMemoryNode shortQueryState).isSome = true := by
  refine ⟨by decide, by decide, by decide⟩
